import Mathlib

/-!
Verification development for the `mylang-lsp` repository.

The Rust sources are shallowly embedded as executable Lean definitions:

* `src/analysis/lexer/mod.rs`  → namespace `Lexer`
* `src/analysis/mod.rs`        → namespace `Analysis`
* `src/analysis/diagnostics/mod.rs` → `Diagnostic.generate` and friends
* `src/main.rs`                → namespace `Main` (the binary has its own
  near-identical copy of the checking pass and diagnostic constructor)

Modelling conventions:

* A Rust `String` is modelled as a Lean `String`; where the Rust code mixes
  byte positions (`source.len()`, `&source[a..b]`) with character positions
  (`source.chars().nth(i)`) the embedding does the same, via `byteLen`
  (UTF-8 byte length of a character list) and `byteSlice` (byte-indexed
  slicing that fails off a character boundary or out of range, as Rust
  string slicing panics there).
* A computation that can hit a Rust panic (`unwrap` of `None`, index out of
  bounds, byte slice out of range) returns `ARes`; `ARes.panic msg` marks
  the panic site.  Loops are embedded with an explicit fuel argument so that
  every definition is executable by the kernel; `ARes.fuelOut` is the
  modelling artefact for exhausted fuel and is distinct from any behaviour
  of the program.  Top-level wrappers supply fuel that is sufficient for the
  loops they run (each loop strictly advances its cursor every iteration).
* Rust `usize` arithmetic: the one subtraction in the program
  (`token.column + token.lexeme.len() - 1`) underflows when
  `column + lexeme.len() = 0`.  a release build wraps (two-complement);
  a debug build aborts.  We model the release (wrapping) semantics
  explicitly with `usizeAdd`/`usizeSub`, and `as u32` casts with `asU32`.
* `HashSet<String>` is modelled as a `List String`; the program only ever
  observes a set through `contains`, so the list order is irrelevant.
  `hsInsert` inserts a name if it is not already present.
* The Rust scope stack is a `Vec` pushed/popped at the *back*; we model it
  as a list with the innermost scope at the *head*: Rust `.last()` is
  `.head?`, Rust `.pop()` is `.tail`, Rust index 0 (the global scope) is
  `.getLast?`.
-/

namespace MylangLsp

/-- Result of running a piece of embedded Rust code: normal value, a panic
(carrying the panic description), or exhausted modelling fuel. -/
inductive ARes (α : Type) where
  | ok : α → ARes α
  | panic : String → ARes α
  | fuelOut : ARes α
deriving DecidableEq, Repr

/-- Panic message for `Option::unwrap` on `None` (e.g. `chars().nth(i).unwrap()`
past the last character, or `scope_stack.last().unwrap()` on an empty stack
— the latter uses `stackUnwrapMsg` so the two sites stay distinguishable). -/
def unwrapMsg : String := "called Option.unwrap on a None value"

/-- Panic message for `scope_stack.last().unwrap()` / `last_mut().unwrap()`
on an empty scope stack. -/
def stackUnwrapMsg : String := "called Option.unwrap on a None value (scope stack)"

/-- Panic message for slice/vector indexing out of bounds (`tokens[i]`). -/
def oobMsg : String := "index out of bounds"

/-- Panic message for a byte-indexed string slice that is out of range or not
on a character boundary. -/
def sliceMsg : String := "byte index out of bounds or not a char boundary"

/-- Number of bytes of the UTF-8 encoding of a character (Rust
`char::len_utf8`). -/
def charBytes (c : Char) : Nat :=
  if c.val < 0x80 then 1
  else if c.val < 0x800 then 2
  else if c.val < 0x10000 then 3
  else 4

/-- UTF-8 byte length of a character list (Rust `String::len`). -/
def byteLen (l : List Char) : Nat := (l.map charBytes).sum

/-- Take the characters occupying the first `n` bytes; `none` when `n` is not
a character boundary or exceeds the byte length. -/
def takeBytes : List Char → Nat → Option (List Char)
  | _, 0 => some []
  | [], _ + 1 => none
  | c :: rest, n + 1 =>
    if charBytes c ≤ n + 1 then
      (takeBytes rest (n + 1 - charBytes c)).map (fun l => c :: l)
    else none

/-- Drop the characters occupying the first `n` bytes; `none` when `n` is not
a character boundary or exceeds the byte length. -/
def dropBytes : List Char → Nat → Option (List Char)
  | l, 0 => some l
  | [], _ + 1 => none
  | c :: rest, n + 1 =>
    if charBytes c ≤ n + 1 then dropBytes rest (n + 1 - charBytes c)
    else none

/-- Rust `&source[a..b]` (byte-indexed, `b` exclusive): `none` models the
panic on an invalid range. -/
def byteSlice (l : List Char) (a b : Nat) : Option (List Char) :=
  if a ≤ b then (dropBytes l a).bind (fun l2 => takeBytes l2 (b - a))
  else none

/-- Type `TokenType` from `src/analysis/lexer/mod.rs`. -/
inductive TokenType where
  | PLUS | MINUS | SLASH | STAR | CARET
  | LeftParen | RightParen | LeftBracket | RightBracket | LeftBrace | RightBrace
  | ARROW | PIPE | COMMA | DOT | COLON | SEMICOLON
  | EQUAL | BANG | GREATER | LESS
  | EqualEqual | BangEqual | LessEqual | GreaterEqual
  | IDENTIFIER | STRING | NUMBER
  | TRUE | FALSE | IF | ELSE | LET
  | EOF
deriving DecidableEq, Repr

/-- Type `Token` from `src/analysis/lexer/mod.rs`. -/
structure Token where
  token_type : TokenType
  lexeme : String
  line : Nat
  column : Nat
deriving DecidableEq, Repr

namespace Lexer

/-- Function `match_char` (lexer lines 301–307): one character of lookahead.  The bound
check uses the *byte* length but the character is fetched by *character*
index; when the byte index is in range but the character index is not, the
`unwrap` panics (`none`).  On a match the cursor advances. -/
def match_char (src : List Char) (current : Nat) (expected : Char) :
    Option (Bool × Nat) :=
  if current + 1 < byteLen src then
    match src.get? (current + 1) with
    | none => none
    | some c => if c = expected then some (true, current + 1) else some (false, current)
  else some (false, current)

/-- The line-comment skip loop (lexer lines 94–96):
`while current < source.len() && source.chars().nth(current) != Some('\n')`.
Returns the final cursor.  Note there is no `unwrap` here: an out-of-range
`nth` compares unequal to `Some('\n')` and the loop continues. -/
def line_comment_scan (src : List Char) : Nat → Nat → ARes Nat
  | 0, _ => .fuelOut
  | fuel + 1, current =>
    if current < byteLen src then
      match src.get? current with
      | some c =>
        if c = '\n' then .ok current
        else line_comment_scan src fuel (current + 1)
      | none => line_comment_scan src fuel (current + 1)
    else .ok current

/-- The digit-run loop of `add_number_token` (lexer lines 319–321). -/
def number_scan (src : List Char) : Nat → Nat → ARes Nat
  | 0, _ => .fuelOut
  | fuel + 1, current =>
    if current < byteLen src then
      match src.get? current with
      | none => .panic unwrapMsg
      | some c =>
        if c.isDigit then number_scan src fuel (current + 1)
        else .ok current
    else .ok current

/-- Function `add_number_token` (lexer lines 309–329): returns the extended token list
and the new cursor; `column` is only read (for `start_col`), never written. -/
def add_number_token (src : List Char) (tokens : List Token) (start current column line : Nat) :
    ARes (List Token × Nat) :=
  match number_scan src (byteLen src + 1) current with
  | .panic m => .panic m
  | .fuelOut => .fuelOut
  | .ok cur =>
    match byteSlice src start cur with
    | none => .panic sliceMsg
    | some lx =>
      .ok (tokens ++ [{ token_type := .NUMBER, lexeme := String.mk lx, line := line,
                        column := column }], cur)

/-- The scan loop of `add_string_token` (lexer lines 342–353).  State is
`(current, column, line)`.  The loop condition `unwrap`s the current
character; a backslash consumes the next character (whose fetch can itself
panic — the trailing-backslash case); an embedded newline bumps the line and
zeroes the column before the shared `column += 1`. -/
def string_scan (src : List Char) : Nat → Nat → Nat → Nat → ARes (Nat × Nat × Nat)
  | 0, _, _, _ => .fuelOut
  | fuel + 1, current, column, line =>
    if current < byteLen src then
      match src.get? current with
      | none => .panic unwrapMsg
      | some c =>
        if c = '"' then .ok (current, column, line)
        else
          let cc := if c = '\\' then (current + 1, column + 1) else (current, column)
          match src.get? cc.1 with
          | none => .panic unwrapMsg
          | some c2 =>
            let lc := if c2 = '\n' then (line + 1, 0) else (line, cc.2)
            string_scan src fuel (cc.1 + 1) (lc.2 + 1) lc.1
    else .ok (current, column, line)

/-- Function `add_string_token` (lexer lines 331–363): skips the opening quote, runs
the scan loop, then unconditionally "skips the closing quote" — when the loop
stopped at end of input that final byte slice is out of range and panics.
Returns the extended token list and the new `(current, column, line)`. -/
def add_string_token (src : List Char) (tokens : List Token)
    (start current column line : Nat) : ARes (List Token × Nat × Nat × Nat) :=
  match string_scan src (byteLen src + 1) (current + 1) column line with
  | .panic m => .panic m
  | .fuelOut => .fuelOut
  | .ok (cur, col, ln) =>
    match byteSlice src start (cur + 1) with
    | none => .panic sliceMsg
    | some lx =>
      .ok (tokens ++ [{ token_type := .STRING, lexeme := String.mk lx, line := ln,
                        column := column }], cur + 1, col + 1, ln)

/-- Rust `char::is_alphanumeric` is Unicode-aware; we model its ASCII
fragment.  The two agree on every input on which the lexer does not already
panic from its byte/character index confusion (any non-ASCII character that
could reach this test makes a later `chars().nth(_).unwrap()` panic). -/
def is_alphanumeric (c : Char) : Bool := c.isAlphanum

/-- The identifier-run loop of `add_identifier_token` (lexer lines 375–380). -/
def ident_scan (src : List Char) : Nat → Nat → ARes Nat
  | 0, _ => .fuelOut
  | fuel + 1, current =>
    if current < byteLen src then
      match src.get? current with
      | none => .panic unwrapMsg
      | some c =>
        if is_alphanumeric c || c = '_' then ident_scan src fuel (current + 1)
        else .ok current
    else .ok current

/-- The reserved-word table of `add_identifier_token` (lexer lines 382–389). -/
def keyword_lookup (lexeme : String) : TokenType :=
  if lexeme = "true" then .TRUE
  else if lexeme = "false" then .FALSE
  else if lexeme = "if" then .IF
  else if lexeme = "else" then .ELSE
  else if lexeme = "let" then .LET
  else .IDENTIFIER

/-- Function `add_identifier_token` (lexer lines 365–396). -/
def add_identifier_token (src : List Char) (tokens : List Token)
    (start current column line : Nat) : ARes (List Token × Nat) :=
  match ident_scan src (byteLen src + 1) current with
  | .panic m => .panic m
  | .fuelOut => .fuelOut
  | .ok cur =>
    match byteSlice src start cur with
    | none => .panic sliceMsg
    | some lx =>
      .ok (tokens ++ [{ token_type := keyword_lookup (String.mk lx), lexeme := String.mk lx,
                        line := line, column := column }], cur)

/-- Push a single-character token (the simple `match` arms of `lex`). -/
def push1 (tokens : List Token) (tt : TokenType) (c : Char) (line column : Nat) :
    List Token :=
  tokens ++ [{ token_type := tt, lexeme := String.mk [c], line := line, column := column }]

/-- The main loop of `lex` (lexer lines 57–290).  `column += 1` happens at the
top of every iteration; branches that `continue` resume without the trailing
`current += 1`, all others resume at `current + 1`. -/
def lexLoop (src : List Char) : Nat → Nat → Nat → Nat → List Token → ARes (List Token)
  | 0, _, _, _, _ => .fuelOut
  | fuel + 1, current, column0, line, tokens =>
    if current < byteLen src then
      let column := column0 + 1
      let start := current
      match src.get? current with
      | none => .panic unwrapMsg
      | some c =>
        match c with
        | '+' => lexLoop src fuel (current + 1) column line (push1 tokens .PLUS c line column)
        | '-' =>
          match match_char src current '>' with
          | none => .panic unwrapMsg
          | some (true, cur) =>
            match byteSlice src start (cur + 1) with
            | none => .panic sliceMsg
            | some lx =>
              lexLoop src fuel (cur + 1) column line
                (tokens ++ [{ token_type := .ARROW, lexeme := String.mk lx, line := line,
                              column := column }])
          | some (false, _) =>
            lexLoop src fuel (current + 1) column line (push1 tokens .MINUS c line column)
        | '*' => lexLoop src fuel (current + 1) column line (push1 tokens .STAR c line column)
        | '/' =>
          match match_char src current '/' with
          | none => .panic unwrapMsg
          | some (true, cur) =>
            match line_comment_scan src (byteLen src + 1) cur with
            | .panic m => .panic m
            | .fuelOut => .fuelOut
            | .ok cur2 => lexLoop src fuel (cur2 + 1) column line tokens
          | some (false, _) =>
            lexLoop src fuel (current + 1) column line (push1 tokens .SLASH c line column)
        | '^' => lexLoop src fuel (current + 1) column line (push1 tokens .CARET c line column)
        | '(' => lexLoop src fuel (current + 1) column line (push1 tokens .LeftParen c line column)
        | ')' => lexLoop src fuel (current + 1) column line (push1 tokens .RightParen c line column)
        | '{' => lexLoop src fuel (current + 1) column line (push1 tokens .LeftBrace c line column)
        | '}' => lexLoop src fuel (current + 1) column line (push1 tokens .RightBrace c line column)
        | '[' => lexLoop src fuel (current + 1) column line (push1 tokens .LeftBracket c line column)
        | ']' => lexLoop src fuel (current + 1) column line (push1 tokens .RightBracket c line column)
        | '|' =>
          match match_char src current '>' with
          | none => .panic unwrapMsg
          | some (true, cur) =>
            match byteSlice src start (cur + 1) with
            | none => .panic sliceMsg
            | some lx =>
              lexLoop src fuel (cur + 1) column line
                (tokens ++ [{ token_type := .PIPE, lexeme := String.mk lx, line := line,
                              column := column }])
          | some (false, _) =>
            lexLoop src fuel (current + 1) column line (push1 tokens .ARROW c line column)
        | ',' => lexLoop src fuel (current + 1) column line (push1 tokens .COMMA c line column)
        | '.' => lexLoop src fuel (current + 1) column line (push1 tokens .DOT c line column)
        | ':' => lexLoop src fuel (current + 1) column line (push1 tokens .COLON c line column)
        | ';' => lexLoop src fuel (current + 1) column line (push1 tokens .SEMICOLON c line column)
        | '=' =>
          match match_char src current '=' with
          | none => .panic unwrapMsg
          | some (true, cur) =>
            match byteSlice src start (cur + 1) with
            | none => .panic sliceMsg
            | some lx =>
              lexLoop src fuel (cur + 1) column line
                (tokens ++ [{ token_type := .EqualEqual, lexeme := String.mk lx, line := line,
                              column := column }])
          | some (false, _) =>
            lexLoop src fuel (current + 1) column line (push1 tokens .EQUAL c line column)
        | '!' =>
          match match_char src current '=' with
          | none => .panic unwrapMsg
          | some (true, cur) =>
            match byteSlice src start (cur + 1) with
            | none => .panic sliceMsg
            | some lx =>
              lexLoop src fuel (cur + 1) column line
                (tokens ++ [{ token_type := .BangEqual, lexeme := String.mk lx, line := line,
                              column := column }])
          | some (false, _) =>
            lexLoop src fuel (current + 1) column line (push1 tokens .BANG c line column)
        | '>' =>
          match match_char src current '=' with
          | none => .panic unwrapMsg
          | some (true, cur) =>
            match byteSlice src start (cur + 1) with
            | none => .panic sliceMsg
            | some lx =>
              lexLoop src fuel (cur + 1) column line
                (tokens ++ [{ token_type := .GreaterEqual, lexeme := String.mk lx, line := line,
                              column := column }])
          | some (false, _) =>
            lexLoop src fuel (current + 1) column line (push1 tokens .GREATER c line column)
        | '<' =>
          match match_char src current '=' with
          | none => .panic unwrapMsg
          | some (true, cur) =>
            match byteSlice src start (cur + 1) with
            | none => .panic sliceMsg
            | some lx =>
              lexLoop src fuel (cur + 1) column line
                (tokens ++ [{ token_type := .LessEqual, lexeme := String.mk lx, line := line,
                              column := column }])
          | some (false, _) =>
            lexLoop src fuel (current + 1) column line (push1 tokens .LESS c line column)
        | _ =>
          if c.isDigit then
            match add_number_token src tokens start current column line with
            | .panic m => .panic m
            | .fuelOut => .fuelOut
            | .ok (tokens2, cur) => lexLoop src fuel cur column line tokens2
          else if c = '"' then
            match add_string_token src tokens start current column line with
            | .panic m => .panic m
            | .fuelOut => .fuelOut
            | .ok (tokens2, cur, col, ln) => lexLoop src fuel cur col ln tokens2
          else if ('a' ≤ c && c ≤ 'z') || ('A' ≤ c && c ≤ 'Z') || c = '_' then
            match add_identifier_token src tokens start current column line with
            | .panic m => .panic m
            | .fuelOut => .fuelOut
            | .ok (tokens2, cur) => lexLoop src fuel cur column line tokens2
          else if c = ' ' || c = '\r' || c = '\t' then
            lexLoop src fuel (current + 1) column line tokens
          else if c = '\n' then
            lexLoop src fuel (current + 1) 0 (line + 1) tokens
          else
            -- "Unexpected character" println side channel: character skipped, no token.
            lexLoop src fuel (current + 1) column line tokens
    else
      .ok (tokens ++ [{ token_type := .EOF, lexeme := "", line := line, column := column0 }])

/-- Function `lex` (lexer lines 51–299).  Every loop advances its cursor by at least
one each iteration, so `byteLen + 1` fuel is never exhausted. -/
def lex (source : String) : ARes (List Token) :=
  lexLoop source.data (byteLen source.data + 1) 0 0 1 []

end Lexer

/-! Diagnostics (`src/analysis/diagnostics/mod.rs`) -/

/-- Type `DiagnosticSeverity` (diagnostics lines 27–32). -/
inductive DiagnosticSeverity where
  | Error | Warning | Information | Hint
deriving DecidableEq, Repr

/-- Type `Position` (diagnostics lines 19–22); the Rust fields are `u32`. -/
structure Position where
  line : Nat
  character : Nat
deriving DecidableEq, Repr

/-- Type `Range` (diagnostics lines 14–17).  The Rust field `end` is a Lean
keyword, rendered `«end»`. -/
structure Range where
  start : Position
  «end» : Position
deriving DecidableEq, Repr

/-- Type `Diagnostic` (diagnostics lines 6–11). -/
structure Diagnostic where
  range : Range
  severity : DiagnosticSeverity
  message : Option String
  source : Option String
deriving DecidableEq, Repr

/-- Constant `2^64`, the modulus of Rust `usize` arithmetic on a 64-bit target. -/
def usizeMod : Nat := 2 ^ 64

/-- Constant `2^32`, the modulus of a Rust `as u32` cast. -/
def u32Mod : Nat := 2 ^ 32

/-- Rust `usize` addition (wraps at `2^64`). -/
def usizeAdd (a b : Nat) : Nat := (a + b) % usizeMod

/-- Rust `usize` subtraction with release-build (wrapping) semantics; a debug
build aborts when `a < b`. -/
def usizeSub (a b : Nat) : Nat := (a + usizeMod - b) % usizeMod

/-- Rust `as u32` cast (truncates mod `2^32`). -/
def asU32 (n : Nat) : Nat := n % u32Mod

/-- Method `Diagnostic::generate` (diagnostics lines 34–53): a single-token range;
the end character is `(token.column + token.lexeme.len() - 1) as u32`, where
`.len()` is the byte length. -/
def Diagnostic.generate (token : Token) (message : String) : Diagnostic :=
  { range :=
      { start := { line := asU32 token.line, character := asU32 token.column },
        «end» := { line := asU32 token.line,
                   character :=
                     asU32 (usizeSub (usizeAdd token.column (byteLen token.lexeme.data)) 1) } },
    severity := .Error,
    message := some message,
    source := some "custom-lsp" }

/-! Scope-diagnostics engine (`src/analysis/mod.rs`) -/

/-- A scope: Rust `HashSet<String>`, observed only through `contains`. -/
abbrev Scope := List String

/-- Method `HashSet::insert`. -/
def hsInsert (w : String) (s : Scope) : Scope :=
  if s.contains w then s else w :: s

namespace Analysis

/-- Function `generate_globals` (analysis lines 104–113), in insertion order. -/
def generate_globals : Scope := ["let", "if", "else", "true", "false"]

/-- Function `handle_let_statement` (analysis lines 213–249): walks the slice
collecting identifiers into `added_words` until the first `ARROW`; duplicate
identifiers and other token kinds emit diagnostics but scanning continues.
The Rust `&mut diagnostics` is threaded as the `diags` accumulator. -/
def handle_let_statement : List Token → Scope → List Diagnostic → Scope × List Diagnostic
  | [], added, diags => (added, diags)
  | t :: rest, added, diags =>
    if t.token_type = .IDENTIFIER then
      if ¬ added.contains t.lexeme then
        handle_let_statement rest (hsInsert t.lexeme added) diags
      else
        handle_let_statement rest added
          (diags ++ [Diagnostic.generate t ("Duplicate identifier in let statement: " ++ t.lexeme)])
    else if t.token_type = .ARROW then (added, diags)
    else
      handle_let_statement rest added
        (diags ++ [Diagnostic.generate t ("Unexpected token in let statement: " ++ t.lexeme)])

/-- The body-walk loop of the `LET` arm (analysis lines 169–181):
`while tokens[i].token_type != SEMICOLON`.  The walk is run on the suffix
`tokens.drop i`; it returns the number of tokens scanned before the
semicolon together with the diagnostics it pushed.  `tokens[i]` on an
exhausted suffix is the Rust index-out-of-bounds panic.  Identifiers are
checked against `scope_stack.last().unwrap()` only (the head of our stack). -/
def let_body_scan (stack : List Scope) : List Token → ARes (Nat × List Diagnostic)
  | [] => .panic oobMsg
  | t :: rest =>
    if t.token_type = .SEMICOLON then .ok (0, [])
    else if t.token_type = .IDENTIFIER then
      match stack.head? with
      | none => .panic stackUnwrapMsg
      | some scope =>
        let ds :=
          if ¬ scope.contains t.lexeme then
            [Diagnostic.generate t ("Unknown identifier: " ++ t.lexeme)]
          else []
        match let_body_scan stack rest with
        | .ok (n, ds') => .ok (n + 1, ds ++ ds')
        | .panic m => .panic m
        | .fuelOut => .fuelOut
    else
      match let_body_scan stack rest with
      | .ok (n, ds') => .ok (n + 1, ds')
      | .panic m => .panic m
      | .fuelOut => .fuelOut

/-- The scan loop of `find_unknown_words` (analysis lines 121–208).  One unit
of fuel per outer iteration; the cursor `i` strictly increases each
iteration, so `tokens.length + 1` fuel is never exhausted.  The `LET` arm
follows analysis lines 125–191 exactly; each early `return`/`break` yields
the diagnostics and stack as they stand at that point. -/
def find_unknown_words_loop (tokens : List Token) :
    Nat → Nat → List Scope → List Diagnostic → ARes (List Diagnostic × List Scope)
  | 0, _, _, _ => .fuelOut
  | fuel + 1, i, stack, diags =>
    match tokens.get? i with
    | none => .ok (diags, stack)
    | some token =>
      match token.token_type with
      | .LET =>
        match tokens.get? (i + 1) with
        | none =>
          .ok (diags ++ [Diagnostic.generate token "Unexpected termination"], stack)
        | some t1 =>
          if t1.token_type ≠ .IDENTIFIER then
            .ok (diags ++
              [Diagnostic.generate token
                ("Expected identifier after \x27let\x27, found: " ++ t1.lexeme)], stack)
          else
            match stack.head? with
            | none => .panic stackUnwrapMsg
            | some top =>
              if top.contains t1.lexeme then
                .ok (diags ++
                  [Diagnostic.generate token
                    ("Duplicate identifier in let statement: " ++ t1.lexeme)], stack)
              else
                let stack1 := hsInsert t1.lexeme top :: stack.tail
                match tokens.get? (i + 2) with
                | none =>
                  .ok (diags ++
                    [Diagnostic.generate token
                      "Unexpected end of input after identifier in let statement"], stack1)
                | some _ =>
                  let ad := handle_let_statement (tokens.drop (i + 2)) [] diags
                  let stack2 := ad.1 :: stack1
                  match let_body_scan stack2 (tokens.drop (i + 2)) with
                  | .panic m => .panic m
                  | .fuelOut => .fuelOut
                  | .ok (n, ds) =>
                    let j := i + 2 + n
                    let diags2 := ad.2 ++ ds
                    if j > tokens.length then
                      .ok (diags2 ++
                        [Diagnostic.generate token
                          "Unexpected end of input after let statement"], stack2)
                    else
                      find_unknown_words_loop tokens fuel (j + 1) stack2.tail diags2
      | .IDENTIFIER =>
        let ds :=
          if ¬ stack.any (fun s => s.contains token.lexeme) then
            [Diagnostic.generate token ("Unknown identifier: " ++ token.lexeme)]
          else []
        find_unknown_words_loop tokens fuel (i + 1) stack (diags ++ ds)
      | _ => find_unknown_words_loop tokens fuel (i + 1) stack diags

/-- Function `find_unknown_words` (analysis lines 115–211): lexes the text (a lexer
panic aborts the process) and runs the scan loop from index 0. -/
def find_unknown_words (text : String) (stack : List Scope) :
    ARes (List Diagnostic × List Scope) :=
  match Lexer.lex text with
  | .panic m => .panic m
  | .fuelOut => .fuelOut
  | .ok tokens => find_unknown_words_loop tokens (tokens.length + 1) 0 stack []

end Analysis

/-! Namespace Main: the copy of the pass that the binary itself carries (`src/main.rs`). -/

namespace Main

/-- Function `handle_error` (main lines 305–322): identical computation to
`Diagnostic::generate`. -/
def handle_error (token : Token) (message : String) : Diagnostic :=
  { range :=
      { start := { line := asU32 token.line, character := asU32 token.column },
        «end» := { line := asU32 token.line,
                   character :=
                     asU32 (usizeSub (usizeAdd token.column (byteLen token.lexeme.data)) 1) } },
    severity := .Error,
    message := some message,
    source := some "custom-lsp" }

/-- Function `generate_globals` (main lines 159–168). -/
def generate_globals : Scope := ["let", "if", "else", "true", "false"]

/-- Function `handle_let_statement` (main lines 267–303); identical to the analysis
module version but using `handle_error`. -/
def handle_let_statement : List Token → Scope → List Diagnostic → Scope × List Diagnostic
  | [], added, diags => (added, diags)
  | t :: rest, added, diags =>
    if t.token_type = .IDENTIFIER then
      if ¬ added.contains t.lexeme then
        handle_let_statement rest (hsInsert t.lexeme added) diags
      else
        handle_let_statement rest added
          (diags ++ [handle_error t ("Duplicate identifier in let statement: " ++ t.lexeme)])
    else if t.token_type = .ARROW then (added, diags)
    else
      handle_let_statement rest added
        (diags ++ [handle_error t ("Unexpected token in let statement: " ++ t.lexeme)])

/-- The body-walk loop of the `LET` arm in `main.rs` (lines 225–235).  Unlike
the analysis module version, the unknown-identifier diagnostic here is
attributed to the enclosing `let` token (`handle_error(token, ...)` where
`token` is `tokens[i]` captured at the top of the outer iteration). -/
def let_body_scan (letTok : Token) (stack : List Scope) :
    List Token → ARes (Nat × List Diagnostic)
  | [] => .panic oobMsg
  | t :: rest =>
    if t.token_type = .SEMICOLON then .ok (0, [])
    else if t.token_type = .IDENTIFIER then
      match stack.head? with
      | none => .panic stackUnwrapMsg
      | some scope =>
        let ds :=
          if ¬ scope.contains t.lexeme then
            [handle_error letTok ("Unknown identifier: " ++ t.lexeme)]
          else []
        match let_body_scan letTok stack rest with
        | .ok (n, ds') => .ok (n + 1, ds ++ ds')
        | .panic m => .panic m
        | .fuelOut => .fuelOut
    else
      match let_body_scan letTok stack rest with
      | .ok (n, ds') => .ok (n + 1, ds')
      | .panic m => .panic m
      | .fuelOut => .fuelOut

/-- The scan loop of `find_unknown_words` in `main.rs` (lines 176–262). -/
def find_unknown_words_loop (tokens : List Token) :
    Nat → Nat → List Scope → List Diagnostic → ARes (List Diagnostic × List Scope)
  | 0, _, _, _ => .fuelOut
  | fuel + 1, i, stack, diags =>
    match tokens.get? i with
    | none => .ok (diags, stack)
    | some token =>
      match token.token_type with
      | .LET =>
        match tokens.get? (i + 1) with
        | none =>
          .ok (diags ++
            [handle_error token "Unexpected end of input after \x27let\x27 keyword"], stack)
        | some t1 =>
          if t1.token_type ≠ .IDENTIFIER then
            .ok (diags ++
              [handle_error token
                ("Expected identifier after \x27let\x27, found: " ++ t1.lexeme)], stack)
          else
            match stack.head? with
            | none => .panic stackUnwrapMsg
            | some top =>
              if top.contains t1.lexeme then
                .ok (diags ++
                  [handle_error token
                    ("Duplicate identifier in let statement: " ++ t1.lexeme)], stack)
              else
                let stack1 := hsInsert t1.lexeme top :: stack.tail
                match tokens.get? (i + 2) with
                | none =>
                  .ok (diags ++
                    [handle_error token
                      "Unexpected end of input after identifier in let statement"], stack1)
                | some _ =>
                  let ad := handle_let_statement (tokens.drop (i + 2)) [] diags
                  let stack2 := ad.1 :: stack1
                  match let_body_scan token stack2 (tokens.drop (i + 2)) with
                  | .panic m => .panic m
                  | .fuelOut => .fuelOut
                  | .ok (n, ds) =>
                    let j := i + 2 + n
                    let diags2 := ad.2 ++ ds
                    if j > tokens.length then
                      .ok (diags2 ++
                        [handle_error token
                          "Unexpected end of input after let statement"], stack2)
                    else
                      find_unknown_words_loop tokens fuel (j + 1) stack2.tail diags2
      | .IDENTIFIER =>
        let ds :=
          if ¬ stack.any (fun s => s.contains token.lexeme) then
            [handle_error token ("Unknown identifier: " ++ token.lexeme)]
          else []
        find_unknown_words_loop tokens fuel (i + 1) stack (diags ++ ds)
      | _ => find_unknown_words_loop tokens fuel (i + 1) stack diags

/-- Function `find_unknown_words` (main lines 170–265). -/
def find_unknown_words (text : String) (stack : List Scope) :
    ARes (List Diagnostic × List Scope) :=
  match Lexer.lex text with
  | .panic m => .panic m
  | .fuelOut => .fuelOut
  | .ok tokens => find_unknown_words_loop tokens (tokens.length + 1) 0 stack []

/-- The `textDocument/didOpen` handling of the session loop in `main` (main lines
63–157), restricted to the document texts: `scope_stack` is created once
before the loop (lines 68–69) and the *same* stack is passed `&mut` to
`find_unknown_words` for every message (line 132) — it is never reset
between documents.  Returns the per-document diagnostic lists and the final
stack. -/
def process_messages : List String → List Scope → ARes (List (List Diagnostic) × List Scope)
  | [], stack => .ok ([], stack)
  | text :: rest, stack =>
    match find_unknown_words text stack with
    | .panic m => .panic m
    | .fuelOut => .fuelOut
    | .ok (ds, stack') =>
      match process_messages rest stack' with
      | .panic m => .panic m
      | .fuelOut => .fuelOut
      | .ok (dss, stack2) => .ok (ds :: dss, stack2)

end Main

/-! Helper lemmas, shared across claims. -/

/-- A successful body walk stops *at* a semicolon, strictly inside the
suffix it was given. -/
theorem Analysis.let_body_scan_ok_lt (stack : List Scope) :
    ∀ (rest : List Token) (n : Nat) (ds : List Diagnostic),
      Analysis.let_body_scan stack rest = .ok (n, ds) → n < rest.length := by
  intro rest
  induction rest with
  | nil => intro n ds h; simp [Analysis.let_body_scan] at h
  | cons t rest ih =>
    intro n ds h
    by_cases hsemi : t.token_type = .SEMICOLON
    · simp [Analysis.let_body_scan, hsemi] at h
      simp [← h.1]
    · by_cases hid : t.token_type = .IDENTIFIER
      · simp [Analysis.let_body_scan, hsemi, hid] at h
        rcases hh : stack.head? with _ | scope
        · rw [hh] at h; simp at h
        · rw [hh] at h
          rcases hrec : Analysis.let_body_scan stack rest with p | m | _ <;> rw [hrec] at h <;>
            simp at h
          obtain ⟨n', ds'⟩ := p
          have := ih n' ds' (by rw [hrec])
          simp at h
          simp only [List.length_cons]
          omega
      · simp [Analysis.let_body_scan, hsemi, hid] at h
        rcases hrec : Analysis.let_body_scan stack rest with p | m | _ <;> rw [hrec] at h <;>
          simp at h
        obtain ⟨n', ds'⟩ := p
        have := ih n' ds' (by rw [hrec])
        simp at h
        simp only [List.length_cons]
        omega

/-- Inserting into a scope never removes a name. -/
theorem hsInsert_contains_mono (v w : String) (s : Scope) (h : s.contains w = true) :
    (hsInsert v s).contains w = true := by
  unfold hsInsert
  split
  · exact h
  · simp_all [List.contains_cons]

/-! Claims. -/

/-- C1. The tokenizer is *not* total and non-failing as claimed: it hits a
Rust panic on an unterminated string literal (the unconditional "skip the
closing quote" advance makes the final byte slice out of range), on a string
ending in a backslash (the escape consumes one character past the end and the
next `unwrap` fails), and on non-ASCII input (character indices are compared
against byte lengths, so `chars().nth(current).unwrap()` runs past the last
character).  The spec contract ("total and non-failing") is the evident
intent for an editor backend, so the code is at fault. -/
theorem c1_lexer_panics :
    Lexer.lex "\"ab" = .panic sliceMsg ∧
    Lexer.lex "\"a\\" = .panic unwrapMsg ∧
    Lexer.lex "é" = .panic unwrapMsg := by
  refine ⟨by decide, by decide, by decide⟩

/-- C4 counterexample. `|>` is *not* classified as the arrow kind: the
lexer gives it the distinct `PIPE` kind. -/
theorem c4_pipe_counterexample :
    Lexer.lex "|>" =
      .ok [{ token_type := .PIPE, lexeme := "|>", line := 1, column := 1 },
           { token_type := .EOF, lexeme := "", line := 1, column := 1 }] ∧
    decide (TokenType.PIPE = TokenType.ARROW) = false := by
  refine ⟨by decide, by decide⟩

/-- C4, amended. `->` lexes to the `ARROW` kind, and a single `|` not
followed by `>` also degrades to `ARROW`; but the compound `|>` lexes to the
distinct `PIPE` kind, not to `ARROW`. -/
theorem c4_arrow_kinds :
    Lexer.lex "->" =
      .ok [{ token_type := .ARROW, lexeme := "->", line := 1, column := 1 },
           { token_type := .EOF, lexeme := "", line := 1, column := 1 }] ∧
    Lexer.lex "|" =
      .ok [{ token_type := .ARROW, lexeme := "|", line := 1, column := 1 },
           { token_type := .EOF, lexeme := "", line := 1, column := 1 }] ∧
    Lexer.lex "|>" =
      .ok [{ token_type := .PIPE, lexeme := "|>", line := 1, column := 1 },
           { token_type := .EOF, lexeme := "", line := 1, column := 1 }] := by
  refine ⟨by decide, by decide, by decide⟩

/-- C5 counterexample. Tokenizing `"// comment\nlet"` does yield exactly
`[let, EOF]`, but the `let` token is recorded on line **1**, not line 2: the
comment loop stops at the newline and the shared trailing `current += 1` then
consumes the newline without the `'\n'` arm (and its line increment) ever
running. -/
theorem c5_comment_line_counterexample :
    Lexer.lex "// comment\nlet" =
      .ok [{ token_type := .LET, lexeme := "let", line := 1, column := 2 },
           { token_type := .EOF, lexeme := "", line := 1, column := 2 }] ∧
    decide ((1 : Nat) = 2) = false := by
  refine ⟨by decide, by decide⟩

/-- C5, amended. `tokenize("// comment\nlet")` yields exactly the two
tokens `[let, EOF]` with the `let` token on line 1: the line comment consumes
through *and including* the newline (the loop stops at the newline and the
trailing increment of the outer scan skips it), so the line counter is never
incremented. -/
theorem c5_comment_consumes_newline :
    Lexer.lex "// comment\nlet" =
      .ok [{ token_type := .LET, lexeme := "let", line := 1, column := 2 },
           { token_type := .EOF, lexeme := "", line := 1, column := 2 }] := by
  decide

/-- C2. On a document whose `let` body never reaches a semicolon
(`"let x -> x"`), the body walk indexes one past the end of the token
sequence and the process *panics* — no "unterminated let statement"
diagnostic is reported, contradicting the behaviour the claim requires (the
code is at fault).  The second half of the claim is true: the bounds
double-check after the loop (`if i > tokens.len()`, analysis line 183) is
dead code, because a normally terminating walk stops at a semicolon at index
`i + 2 + n < tokens.length`. -/
theorem c2_unterminated_let :
    Analysis.find_unknown_words "let x -> x" [Analysis.generate_globals] = .panic oobMsg ∧
    ∀ (tokens : List Token) (i : Nat) (stack : List Scope) (n : Nat) (ds : List Diagnostic),
      i + 2 < tokens.length →
      Analysis.let_body_scan stack (tokens.drop (i + 2)) = .ok (n, ds) →
      i + 2 + n < tokens.length := by
  constructor
  · decide
  · intro tokens i stack n ds hlt hscan
    have hn := Analysis.let_body_scan_ok_lt stack (tokens.drop (i + 2)) n ds hscan
    have hdrop : (tokens.drop (i + 2)).length = tokens.length - (i + 2) :=
      List.length_drop _ _
    omega

/-- C2 witness. A concrete instantiation of the dead-code half: for the
token sequence of `"let x -> x;"` the body walk stops at the semicolon,
index `4 < 6`. -/
theorem c2_witness : 0 + 2 + 2 < 6 := by
  refine c2_unterminated_let.2
    [{ token_type := .LET, lexeme := "let", line := 1, column := 1 },
     { token_type := .IDENTIFIER, lexeme := "x", line := 1, column := 3 },
     { token_type := .ARROW, lexeme := "->", line := 1, column := 5 },
     { token_type := .IDENTIFIER, lexeme := "x", line := 1, column := 7 },
     { token_type := .SEMICOLON, lexeme := ";", line := 1, column := 8 },
     { token_type := .EOF, lexeme := "", line := 1, column := 8 }]
    0 [[], ["x", "let", "if", "else", "true", "false"]] 2
    [{ range := { start := { line := 1, character := 7 },
                  «end» := { line := 1, character := 7 } },
       severity := .Error,
       message := some "Unknown identifier: x",
       source := some "custom-lsp" }]
    (by decide) (by decide)

/-- C3. Name resolution is asymmetric, exactly as claimed.
(1) The body walk of a `let` statement consults only the innermost scope:
its result is unchanged by replacing every outer scope.
(2) During the body walk, an identifier token contributes an
"Unknown identifier" diagnostic exactly when its lexeme is missing from the
innermost scope (`scope_stack.last().unwrap()`).
(3) Outside a `let` body, a bare identifier token is checked against the
union of all scopes on the stack and contributes an "Unknown identifier"
diagnostic exactly when it is in none of them. -/
theorem c3_resolution_asymmetry :
    (∀ (s1 s2 : List Scope), s1.head? = s2.head? →
      ∀ (rest : List Token), Analysis.let_body_scan s1 rest = Analysis.let_body_scan s2 rest) ∧
    (∀ (stack : List Scope) (scope : Scope) (t : Token) (rest : List Token),
      stack.head? = some scope → t.token_type = .IDENTIFIER →
      Analysis.let_body_scan stack (t :: rest) =
        match Analysis.let_body_scan stack rest with
        | .ok (n, ds') =>
          .ok (n + 1,
            (if ¬ scope.contains t.lexeme then
              [Diagnostic.generate t ("Unknown identifier: " ++ t.lexeme)]
            else []) ++ ds')
        | .panic m => .panic m
        | .fuelOut => .fuelOut) ∧
    (∀ (tokens : List Token) (fuel i : Nat) (stack : List Scope) (diags : List Diagnostic)
       (t : Token),
      tokens.get? i = some t → t.token_type = .IDENTIFIER →
      Analysis.find_unknown_words_loop tokens (fuel + 1) i stack diags =
        Analysis.find_unknown_words_loop tokens fuel (i + 1) stack
          (diags ++
            if ¬ stack.any (fun s => s.contains t.lexeme) then
              [Diagnostic.generate t ("Unknown identifier: " ++ t.lexeme)]
            else [])) := by
  refine ⟨?_, ?_, ?_⟩
  · intro s1 s2 hhead rest
    induction rest with
    | nil => rfl
    | cons t rest ih =>
      simp only [Analysis.let_body_scan, hhead, ih]
  · intro stack scope t rest hhead ht
    have hsemi : t.token_type ≠ .SEMICOLON := by rw [ht]; intro h; cases h
    simp only [Analysis.let_body_scan, hhead, ht, if_neg hsemi, if_pos rfl]
    simp
  · intro tokens fuel i stack diags t hget ht
    simp only [Analysis.find_unknown_words_loop, hget, ht]

/-- C3 witness. Concrete instantiations of all three parts: the body walk
over `[x, ;]` ignores the outer (global) scope entirely, flags `x` when the
innermost scope is empty, and the top-level identifier arm consults the full
stack. -/
theorem c3_witness :
    (Analysis.let_body_scan [[], Analysis.generate_globals]
        [{ token_type := .IDENTIFIER, lexeme := "x", line := 1, column := 1 },
         { token_type := .SEMICOLON, lexeme := ";", line := 1, column := 2 }] =
      Analysis.let_body_scan [[]]
        [{ token_type := .IDENTIFIER, lexeme := "x", line := 1, column := 1 },
         { token_type := .SEMICOLON, lexeme := ";", line := 1, column := 2 }]) ∧
    (Analysis.let_body_scan [[], Analysis.generate_globals]
        [{ token_type := .IDENTIFIER, lexeme := "x", line := 1, column := 1 },
         { token_type := .SEMICOLON, lexeme := ";", line := 1, column := 2 }] =
      match Analysis.let_body_scan [[], Analysis.generate_globals]
          [{ token_type := .SEMICOLON, lexeme := ";", line := 1, column := 2 }] with
      | .ok (n, ds') =>
        .ok (n + 1,
          (if ¬ ([] : Scope).contains "x" then
            [Diagnostic.generate { token_type := .IDENTIFIER, lexeme := "x", line := 1, column := 1 }
              ("Unknown identifier: " ++ "x")]
          else []) ++ ds')
      | .panic m => .panic m
      | .fuelOut => .fuelOut) ∧
    (Analysis.find_unknown_words_loop
        [{ token_type := .IDENTIFIER, lexeme := "x", line := 1, column := 1 },
         { token_type := .EOF, lexeme := "", line := 1, column := 1 }] 3 0
        [["x"], []] [] =
      Analysis.find_unknown_words_loop
        [{ token_type := .IDENTIFIER, lexeme := "x", line := 1, column := 1 },
         { token_type := .EOF, lexeme := "", line := 1, column := 1 }] 2 1
        [["x"], []]
        ([] ++
          if ¬ ([["x"], []] : List Scope).any
              (fun s => s.contains ({ token_type := .IDENTIFIER, lexeme := "x", line := 1,
                                      column := 1 } : Token).lexeme) then
            [Diagnostic.generate { token_type := .IDENTIFIER, lexeme := "x", line := 1, column := 1 }
              ("Unknown identifier: " ++ "x")]
          else [])) := by
  refine ⟨?_, ?_, ?_⟩
  · exact c3_resolution_asymmetry.1 [[], Analysis.generate_globals] [[]] (by decide) _
  · exact c3_resolution_asymmetry.2.1 [[], Analysis.generate_globals] [] _ _ (by decide) (by decide)
  · exact c3_resolution_asymmetry.2.2 _ 2 0 [["x"], []] [] _ (by decide) (by decide)

/-- C6. A malformed `let` aborts the whole checking pass.
(1) If the token after `let` is not an identifier, the pass returns
immediately with the "Expected identifier" diagnostic appended — no further
token is scanned.
(2) If the identifier is already present in the innermost scope, the pass
returns immediately with the "Duplicate identifier" diagnostic appended.
(3) Concretely, analyzing `"let x -> x; let x -> x;"` ends with a
duplicate-identifier diagnostic generated from the *second* `let` token
(line 1, column 10) and nothing after it (the preceding diagnostic is the
body-walk unknown-identifier quirk on the first statement). -/
theorem c6_malformed_let_aborts :
    (∀ (tokens : List Token) (fuel i : Nat) (stack : List Scope) (diags : List Diagnostic)
       (token t1 : Token),
      tokens.get? i = some token → token.token_type = .LET →
      tokens.get? (i + 1) = some t1 → t1.token_type ≠ .IDENTIFIER →
      Analysis.find_unknown_words_loop tokens (fuel + 1) i stack diags =
        .ok (diags ++
          [Diagnostic.generate token
            ("Expected identifier after \x27let\x27, found: " ++ t1.lexeme)], stack)) ∧
    (∀ (tokens : List Token) (fuel i : Nat) (stack : List Scope) (diags : List Diagnostic)
       (token t1 : Token) (top : Scope),
      tokens.get? i = some token → token.token_type = .LET →
      tokens.get? (i + 1) = some t1 → t1.token_type = .IDENTIFIER →
      stack.head? = some top → top.contains t1.lexeme = true →
      Analysis.find_unknown_words_loop tokens (fuel + 1) i stack diags =
        .ok (diags ++
          [Diagnostic.generate token
            ("Duplicate identifier in let statement: " ++ t1.lexeme)], stack)) ∧
    Analysis.find_unknown_words "let x -> x; let x -> x;" [Analysis.generate_globals] =
      .ok ([{ range := { start := { line := 1, character := 7 },
                         «end» := { line := 1, character := 7 } },
              severity := .Error,
              message := some "Unknown identifier: x",
              source := some "custom-lsp" },
            Diagnostic.generate { token_type := .LET, lexeme := "let", line := 1, column := 10 }
              ("Duplicate identifier in let statement: " ++ "x")],
           [["x", "let", "if", "else", "true", "false"]]) := by
  refine ⟨?_, ?_, by decide⟩
  · intro tokens fuel i stack diags token t1 hget hlet hget1 hne
    simp only [Analysis.find_unknown_words_loop, hget, hlet, hget1, if_pos hne]
  · intro tokens fuel i stack diags token t1 top hget hlet hget1 hid hhead hdup
    simp only [Analysis.find_unknown_words_loop, hget, hlet, hget1,
      if_neg (not_not_intro hid), hhead, hdup, if_pos rfl]
    simp

/-- C6 witness. Concrete instantiations of both abort rules: `let ;`
aborts with "Expected identifier", and `let x` aborts with
"Duplicate identifier" when `x` is already in the innermost scope. -/
theorem c6_witness :
    (Analysis.find_unknown_words_loop
        [{ token_type := .LET, lexeme := "let", line := 1, column := 1 },
         { token_type := .SEMICOLON, lexeme := ";", line := 1, column := 5 }] 3 0
        [Analysis.generate_globals] [] =
      .ok ([Diagnostic.generate { token_type := .LET, lexeme := "let", line := 1, column := 1 }
              ("Expected identifier after \x27let\x27, found: " ++ ";")],
           [Analysis.generate_globals])) ∧
    (Analysis.find_unknown_words_loop
        [{ token_type := .LET, lexeme := "let", line := 1, column := 1 },
         { token_type := .IDENTIFIER, lexeme := "x", line := 1, column := 5 }] 3 0
        [["x"]] [] =
      .ok ([Diagnostic.generate { token_type := .LET, lexeme := "let", line := 1, column := 1 }
              ("Duplicate identifier in let statement: " ++ "x")],
           [["x"]])) := by
  constructor
  · exact c6_malformed_let_aborts.1
      [{ token_type := .LET, lexeme := "let", line := 1, column := 1 },
       { token_type := .SEMICOLON, lexeme := ";", line := 1, column := 5 }] 2 0
      [Analysis.generate_globals] []
      { token_type := .LET, lexeme := "let", line := 1, column := 1 }
      { token_type := .SEMICOLON, lexeme := ";", line := 1, column := 5 }
      (by decide) (by decide) (by decide) (by decide)
  · exact c6_malformed_let_aborts.2.1
      [{ token_type := .LET, lexeme := "let", line := 1, column := 1 },
       { token_type := .IDENTIFIER, lexeme := "x", line := 1, column := 5 }] 2 0
      [["x"]] []
      { token_type := .LET, lexeme := "let", line := 1, column := 1 }
      { token_type := .IDENTIFIER, lexeme := "x", line := 1, column := 5 } ["x"]
      (by decide) (by decide) (by decide) (by decide) (by decide) (by decide)

/-- A body walk run with a nonempty scope stack never fails the
`scope_stack.last().unwrap()` (its only possible panic is the
index-out-of-bounds one). -/
theorem Analysis.let_body_scan_no_stack_panic (stack : List Scope) (hne : stack ≠ []) :
    ∀ rest : List Token, Analysis.let_body_scan stack rest ≠ .panic stackUnwrapMsg := by
  intro rest
  induction rest with
  | nil =>
    simp only [Analysis.let_body_scan]
    decide
  | cons t rest ih =>
    by_cases hsemi : t.token_type = .SEMICOLON
    · simp [Analysis.let_body_scan, hsemi]
    · by_cases hid : t.token_type = .IDENTIFIER
      · obtain ⟨s, tl, rfl⟩ : ∃ s tl, stack = s :: tl := by
          cases stack with
          | nil => exact absurd rfl hne
          | cons a b => exact ⟨a, b, rfl⟩
        simp only [Analysis.let_body_scan, hsemi, hid, if_neg hsemi, if_pos rfl,
          List.head?_cons]
        rcases hrec : Analysis.let_body_scan (s :: tl) rest with nds | m | _
        · simp
        · rw [hrec] at ih; simpa using ih
        · simp
      · obtain ⟨s, tl, rfl⟩ : ∃ s tl, stack = s :: tl := by
          cases stack with
          | nil => exact absurd rfl hne
          | cons a b => exact ⟨a, b, rfl⟩
        simp only [Analysis.let_body_scan, if_neg hsemi, if_neg hid]
        rcases hrec : Analysis.let_body_scan (s :: tl) rest with nds | m | _
        · simp
        · rw [hrec] at ih; simpa using ih
        · simp

/-- Replacing the bottom (global) scope of a stack by an `hsInsert` into it
keeps a bottom scope containing everything the old one contained. -/
theorem stack_bottom_insert (top : Scope) (tl : List Scope) (v : String) :
    ∀ g, (top :: tl).getLast? = some g →
      ∃ g', (hsInsert v top :: tl).getLast? = some g' ∧
        ∀ w, g.contains w = true → g'.contains w = true := by
  cases tl with
  | nil =>
    intro g hg
    have hg' : g = top := by simpa using hg.symm
    subst hg'
    exact ⟨hsInsert v g, by simp,
      fun w hw => hsInsert_contains_mono v w g hw⟩
  | cons b tl' =>
    intro g hg
    rw [List.getLast?_cons_cons] at hg
    exact ⟨g, by rw [List.getLast?_cons_cons]; exact hg, fun w hw => hw⟩

/-- C7. During a checking pass run on a nonempty scope stack, the stack
never becomes empty — no `scope_stack.last().unwrap()`/`last_mut().unwrap()`
ever fails (the pass never returns the stack-unwrap panic) — and whenever the
pass returns normally the stack has its original depth, is still nonempty,
and its bottom (global) scope is still there, containing every name it
contained before (it is only ever added to, never popped). -/
theorem c7_scope_stack_invariant :
    ∀ (fuel : Nat) (tokens : List Token) (i : Nat) (stack : List Scope)
      (diags : List Diagnostic),
      stack ≠ [] →
      Analysis.find_unknown_words_loop tokens fuel i stack diags ≠ .panic stackUnwrapMsg ∧
      (∀ (ds' : List Diagnostic) (s' : List Scope),
        Analysis.find_unknown_words_loop tokens fuel i stack diags = .ok (ds', s') →
        s'.length = stack.length ∧ s' ≠ [] ∧
        ∀ g, stack.getLast? = some g →
          ∃ g', s'.getLast? = some g' ∧
            ∀ w, g.contains w = true → g'.contains w = true) := by
  intro fuel
  induction fuel with
  | zero =>
    intro tokens i stack diags hne
    constructor
    · simp only [Analysis.find_unknown_words_loop]
      intro h
      cases h
    · intro ds' s' h
      simp only [Analysis.find_unknown_words_loop] at h
      cases h
  | succ fuel ih =>
    intro tokens i stack diags hne
    obtain ⟨top, tl, rfl⟩ : ∃ a b, stack = a :: b := by
      cases stack with
      | nil => exact absurd rfl hne
      | cons a b => exact ⟨a, b, rfl⟩
    cases hget : tokens.get? i with
    | none =>
      constructor
      · simp only [Analysis.find_unknown_words_loop, hget]
        intro h
        cases h
      · intro ds' s' h
        simp only [Analysis.find_unknown_words_loop, hget] at h
        injection h with hpair
        injection hpair with h1 h2
        subst h2
        exact ⟨rfl, by simp, fun g hg => ⟨g, hg, fun w hw => hw⟩⟩
    | some token =>
      cases httype : token.token_type
      case LET =>
        cases hget1 : tokens.get? (i + 1) with
        | none =>
          constructor
          · simp only [Analysis.find_unknown_words_loop, hget, httype, hget1]
            intro h
            cases h
          · intro ds' s' h
            simp only [Analysis.find_unknown_words_loop, hget, httype, hget1] at h
            injection h with hpair
            injection hpair with h1 h2
            subst h2
            exact ⟨rfl, by simp, fun g hg => ⟨g, hg, fun w hw => hw⟩⟩
        | some t1 =>
          by_cases hid1 : t1.token_type = .IDENTIFIER
          · cases hdup : top.contains t1.lexeme with
            | true =>
              constructor
              · simp only [Analysis.find_unknown_words_loop, hget, httype, hget1,
                  if_neg (not_not_intro hid1), List.head?_cons, hdup, if_pos rfl]
                intro h
                cases h
              · intro ds' s' h
                simp only [Analysis.find_unknown_words_loop, hget, httype, hget1,
                  if_neg (not_not_intro hid1), List.head?_cons, hdup, if_pos rfl] at h
                injection h with hpair
                injection hpair with h1 h2
                subst h2
                exact ⟨rfl, by simp, fun g hg => ⟨g, hg, fun w hw => hw⟩⟩
            | false =>
              cases hget2 : tokens.get? (i + 2) with
              | none =>
                constructor
                · simp only [Analysis.find_unknown_words_loop, hget, httype, hget1,
                    if_neg (not_not_intro hid1), List.head?_cons, hdup, Bool.false_eq_true,
                    if_false, hget2, List.tail_cons]
                  intro h
                  cases h
                · intro ds' s' h
                  simp only [Analysis.find_unknown_words_loop, hget, httype, hget1,
                    if_neg (not_not_intro hid1), List.head?_cons, hdup, Bool.false_eq_true,
                    if_false, hget2, List.tail_cons] at h
                  injection h with hpair
                  injection hpair with h1 h2
                  subst h2
                  refine ⟨by simp, by simp, ?_⟩
                  exact stack_bottom_insert top tl t1.lexeme
              | some t2 =>
                have hstack2ne :
                    ((Analysis.handle_let_statement (List.drop (i + 2) tokens) [] diags).1 ::
                      hsInsert t1.lexeme top :: tl) ≠ [] := by simp
                rcases hscan : Analysis.let_body_scan
                    ((Analysis.handle_let_statement (List.drop (i + 2) tokens) [] diags).1 ::
                      hsInsert t1.lexeme top :: tl) (List.drop (i + 2) tokens)
                  with nds | m | _
                · obtain ⟨n, ds⟩ := nds
                  obtain ⟨hlt2, -⟩ := List.get?_eq_some.mp hget2
                  have hn := Analysis.let_body_scan_ok_lt _ _ _ _ hscan
                  have hdroplen : (tokens.drop (i + 2)).length = tokens.length - (i + 2) :=
                    List.length_drop _ _
                  have hdead : ¬ (i + 2 + n > tokens.length) := by omega
                  have hrec := ih tokens (i + 2 + n + 1) (hsInsert t1.lexeme top :: tl)
                    ((Analysis.handle_let_statement (List.drop (i + 2) tokens) [] diags).2 ++ ds)
                    (by simp)
                  constructor
                  · simp only [Analysis.find_unknown_words_loop, hget, httype, hget1,
                      if_neg (not_not_intro hid1), List.head?_cons, hdup, Bool.false_eq_true,
                      if_false, hget2, List.tail_cons, hscan, if_neg hdead]
                    exact hrec.1
                  · intro ds' s' h
                    simp only [Analysis.find_unknown_words_loop, hget, httype, hget1,
                      if_neg (not_not_intro hid1), List.head?_cons, hdup, Bool.false_eq_true,
                      if_false, hget2, List.tail_cons, hscan, if_neg hdead] at h
                    obtain ⟨hlen, hne', hbot⟩ := hrec.2 ds' s' h
                    refine ⟨by simpa using hlen, hne', ?_⟩
                    intro g hg
                    obtain ⟨g1, hg1, hmono1⟩ := stack_bottom_insert top tl t1.lexeme g hg
                    obtain ⟨g', hg', hmono2⟩ := hbot g1 hg1
                    exact ⟨g', hg', fun w hw => hmono2 w (hmono1 w hw)⟩
                · have hnp := Analysis.let_body_scan_no_stack_panic _ hstack2ne
                    (List.drop (i + 2) tokens)
                  rw [hscan] at hnp
                  constructor
                  · simp only [Analysis.find_unknown_words_loop, hget, httype, hget1,
                      if_neg (not_not_intro hid1), List.head?_cons, hdup, Bool.false_eq_true,
                      if_false, hget2, List.tail_cons, hscan]
                    have hm : m ≠ stackUnwrapMsg := fun he => hnp (he ▸ rfl)
                    intro h
                    injection h with hm2
                    exact hm hm2
                  · intro ds' s' h
                    simp only [Analysis.find_unknown_words_loop, hget, httype, hget1,
                      if_neg (not_not_intro hid1), List.head?_cons, hdup, Bool.false_eq_true,
                      if_false, hget2, List.tail_cons, hscan] at h
                    cases h
                · constructor
                  · simp only [Analysis.find_unknown_words_loop, hget, httype, hget1,
                      if_neg (not_not_intro hid1), List.head?_cons, hdup, Bool.false_eq_true,
                      if_false, hget2, List.tail_cons, hscan]
                    intro h
                    cases h
                  · intro ds' s' h
                    simp only [Analysis.find_unknown_words_loop, hget, httype, hget1,
                      if_neg (not_not_intro hid1), List.head?_cons, hdup, Bool.false_eq_true,
                      if_false, hget2, List.tail_cons, hscan] at h
                    cases h
          · constructor
            · simp only [Analysis.find_unknown_words_loop, hget, httype, hget1, if_pos hid1]
              intro h
              cases h
            · intro ds' s' h
              simp only [Analysis.find_unknown_words_loop, hget, httype, hget1,
                if_pos hid1] at h
              injection h with hpair
              injection hpair with h1 h2
              subst h2
              exact ⟨rfl, by simp, fun g hg => ⟨g, hg, fun w hw => hw⟩⟩
      case IDENTIFIER =>
        have hrec := ih tokens (i + 1) (top :: tl)
          (diags ++
            if ¬ (top :: tl).any (fun s => s.contains token.lexeme) then
              [Diagnostic.generate token ("Unknown identifier: " ++ token.lexeme)]
            else []) (by simp)
        constructor
        · simp only [Analysis.find_unknown_words_loop, hget, httype]
          exact hrec.1
        · intro ds' s' h
          simp only [Analysis.find_unknown_words_loop, hget, httype] at h
          exact hrec.2 ds' s' h
      all_goals {
        have hrec := ih tokens (i + 1) (top :: tl) diags (by simp)
        constructor
        · simp only [Analysis.find_unknown_words_loop, hget, httype]
          exact hrec.1
        · intro ds' s' h
          simp only [Analysis.find_unknown_words_loop, hget, httype] at h
          exact hrec.2 ds' s' h
      }

/-- C7 witness. The invariant instantiated on the concrete pass over
`"let x -> x;"`: the result is normal, the returned stack again has depth 1,
and the global scope still contains every seeded reserved word (plus `x`). -/
theorem c7_witness :
    Analysis.find_unknown_words_loop
      [{ token_type := .LET, lexeme := "let", line := 1, column := 1 },
       { token_type := .IDENTIFIER, lexeme := "x", line := 1, column := 3 },
       { token_type := .ARROW, lexeme := "->", line := 1, column := 5 },
       { token_type := .IDENTIFIER, lexeme := "x", line := 1, column := 7 },
       { token_type := .SEMICOLON, lexeme := ";", line := 1, column := 8 },
       { token_type := .EOF, lexeme := "", line := 1, column := 8 }] 7 0
      [Analysis.generate_globals] [] ≠ .panic stackUnwrapMsg := by
  exact (c7_scope_stack_invariant 7
    [{ token_type := .LET, lexeme := "let", line := 1, column := 1 },
     { token_type := .IDENTIFIER, lexeme := "x", line := 1, column := 3 },
     { token_type := .ARROW, lexeme := "->", line := 1, column := 5 },
     { token_type := .IDENTIFIER, lexeme := "x", line := 1, column := 7 },
     { token_type := .SEMICOLON, lexeme := ";", line := 1, column := 8 },
     { token_type := .EOF, lexeme := "", line := 1, column := 8 }] 0
    [Analysis.generate_globals] [] (by decide)).1

/-- C8. There is one scope stack per session, threaded through every
`textDocument/didOpen` in order and never reset.
(1) Processing two messages means: check document 1 against the incoming
stack, then check document 2 against the *stack that the check of document 1
returned* — not against a fresh stack.
(2) Concretely, after `"let x -> x;"` binds `x` into the global scope, a
second document consisting of the bare identifier `x` produces *no*
diagnostics (the binding persisted; the only diagnostic of the session is the
body-walk quirk from document 1).
(3) By contrast, checking `"x"` against a fresh seeded stack does emit an
unknown-identifier diagnostic. -/
theorem c8_stack_persists_across_documents :
    (∀ (t1 t2 : String) (s : List Scope) (r : List (List Diagnostic) × List Scope),
      Main.process_messages [t1, t2] s = .ok r →
      ∃ d1 s1 d2 s2, Main.find_unknown_words t1 s = .ok (d1, s1) ∧
        Main.find_unknown_words t2 s1 = .ok (d2, s2) ∧ r = ([d1, d2], s2)) ∧
    Main.process_messages ["let x -> x;", "x"] [Main.generate_globals] =
      .ok ([[{ range := { start := { line := 1, character := 1 },
                          «end» := { line := 1, character := 3 } },
               severity := .Error,
               message := some "Unknown identifier: x",
               source := some "custom-lsp" }], []],
           [["x", "let", "if", "else", "true", "false"]]) ∧
    Main.find_unknown_words "x" [Main.generate_globals] =
      .ok ([{ range := { start := { line := 1, character := 1 },
                         «end» := { line := 1, character := 1 } },
              severity := .Error,
              message := some "Unknown identifier: x",
              source := some "custom-lsp" }], [Main.generate_globals]) := by
  refine ⟨?_, by decide, by decide⟩
  intro t1 t2 s r h
  simp only [Main.process_messages] at h
  rcases h1 : Main.find_unknown_words t1 s with p1 | m | _ <;> rw [h1] at h
  · obtain ⟨d1, s1⟩ := p1
    dsimp only at h
    rcases h2 : Main.find_unknown_words t2 s1 with p2 | m | _ <;> rw [h2] at h
    · obtain ⟨d2, s2⟩ := p2
      dsimp only at h
      injection h with hpair
      exact ⟨d1, s1, d2, s2, rfl, h2, hpair.symm⟩
    · dsimp only at h
      cases h
    · dsimp only at h
      cases h
  · dsimp only at h
    cases h
  · dsimp only at h
    cases h

/-- C8 witness. The decomposition applied to the concrete two-document
session. -/
theorem c8_witness :
    ∃ d1 s1 d2 s2,
      Main.find_unknown_words "let x -> x;" [Main.generate_globals] = .ok (d1, s1) ∧
      Main.find_unknown_words "x" s1 = .ok (d2, s2) ∧
      (([[{ range := { start := { line := 1, character := 1 },
                       «end» := { line := 1, character := 3 } },
            severity := .Error,
            message := some "Unknown identifier: x",
            source := some "custom-lsp" }], []],
         [["x", "let", "if", "else", "true", "false"]]) :
          List (List Diagnostic) × List Scope) = ([d1, d2], s2) := by
  exact c8_stack_persists_across_documents.1 "let x -> x;" "x" [Main.generate_globals]
    ([[{ range := { start := { line := 1, character := 1 },
                    «end» := { line := 1, character := 3 } },
         severity := .Error,
         message := some "Unknown identifier: x",
         source := some "custom-lsp" }], []],
      [["x", "let", "if", "else", "true", "false"]])
    (by decide)

/-- C9 counterexample. Not every engine-generated diagnostic spans its
token: analyzing `"let x ;\n"` makes `handle_let_statement` call the
diagnostic constructor on the end-of-input token (line 2, column 0, empty
lexeme), for which `column + lexeme.len() - 1` underflows `usize` and wraps:
the emitted range runs from character 0 to character `2^32 − 1` (a debug
build would abort instead).  In particular its end character is not
`column + lexeme length − 1` read as ordinary arithmetic. -/
theorem c9_underflow_counterexample :
    Analysis.find_unknown_words "let x ;\n" [Analysis.generate_globals] =
      .ok ([{ range := { start := { line := 1, character := 5 },
                         «end» := { line := 1, character := 5 } },
              severity := .Error,
              message := some "Unexpected token in let statement: ;",
              source := some "custom-lsp" },
            Diagnostic.generate { token_type := .EOF, lexeme := "", line := 2, column := 0 }
              ("Unexpected token in let statement: " ++ "")],
           [["x", "let", "if", "else", "true", "false"]]) ∧
    (Diagnostic.generate { token_type := .EOF, lexeme := "", line := 2, column := 0 }
        ("Unexpected token in let statement: " ++ "")).range.«end».character = 4294967295 ∧
    decide ((4294967295 : Nat) + 1 =
      ({ token_type := .EOF, lexeme := "", line := 2, column := 0 } : Token).column +
        byteLen ({ token_type := .EOF, lexeme := "", line := 2, column := 0 } : Token).lexeme.data)
      = false := by
  refine ⟨by decide, by decide, by decide⟩

/-- C9, amended. Every diagnostic generated from a token `t` with
`t.column + byte-length of lexeme ≥ 1` (and positions below `2^32`, which
holds for every real document) spans exactly that token: both lines equal
the line of the token, the start character is its column, and the end
character is `column + lexeme length − 1` — single-token spans, in both
diagnostic constructors.  The `≥ 1` proviso is forced by the counterexample:
for an empty-lexeme token at column 0 the subtraction underflows. -/
theorem c9_single_token_span :
    ∀ (token : Token) (msg : String),
      1 ≤ token.column + byteLen token.lexeme.data →
      token.column + byteLen token.lexeme.data ≤ u32Mod →
      token.line < u32Mod → token.column < u32Mod →
      Diagnostic.generate token msg =
        { range := { start := { line := token.line, character := token.column },
                     «end» := { line := token.line,
                                character := token.column + byteLen token.lexeme.data - 1 } },
          severity := .Error, message := some msg, source := some "custom-lsp" } ∧
      Main.handle_error token msg =
        { range := { start := { line := token.line, character := token.column },
                     «end» := { line := token.line,
                                character := token.column + byteLen token.lexeme.data - 1 } },
          severity := .Error, message := some msg, source := some "custom-lsp" } := by
  intro token msg h1 h2 h3 h4
  have hend :
      asU32 (usizeSub (usizeAdd token.column (byteLen token.lexeme.data)) 1) =
        token.column + byteLen token.lexeme.data - 1 := by
    simp only [asU32, usizeSub, usizeAdd, u32Mod, usizeMod] at *
    omega
  have hline : asU32 token.line = token.line := by
    simp only [asU32, u32Mod] at *
    omega
  have hcol : asU32 token.column = token.column := by
    simp only [asU32, u32Mod] at *
    omega
  constructor
  · simp only [Diagnostic.generate, hend, hline, hcol]
  · simp only [Main.handle_error, hend, hline, hcol]

/-- C9 witness. The single-token-span law applied to a concrete
identifier token. -/
theorem c9_witness :
    Diagnostic.generate { token_type := .IDENTIFIER, lexeme := "x", line := 1, column := 7 }
        "Unknown identifier: x" =
      { range := { start := { line := 1, character := 7 },
                   «end» := { line := 1, character := 7 } },
        severity := .Error, message := some "Unknown identifier: x",
        source := some "custom-lsp" } := by
  have h := c9_single_token_span
    { token_type := .IDENTIFIER, lexeme := "x", line := 1, column := 7 }
    "Unknown identifier: x" (by decide) (by decide) (by decide) (by decide)
  simpa using h.1

/-- The three field invariants of every engine diagnostic: severity `Error`,
a present message, and source label `"custom-lsp"`. -/
def diagWF (d : Diagnostic) : Prop :=
  d.severity = .Error ∧ d.message.isSome = true ∧ d.source = some "custom-lsp"

/-- `Diagnostic::generate` always produces a well-formed diagnostic. -/
theorem diagWF_generate (t : Token) (m : String) : diagWF (Diagnostic.generate t m) := by
  simp [diagWF, Diagnostic.generate]

/-- `handle_error` always produces a well-formed diagnostic. -/
theorem diagWF_handle_error (t : Token) (m : String) : diagWF (Main.handle_error t m) := by
  simp [diagWF, Main.handle_error]

/-- The parameter-list scan only ever appends well-formed diagnostics. -/
theorem Analysis.handle_let_statement_wf :
    ∀ (ts : List Token) (added : Scope) (diags : List Diagnostic),
      (∀ d ∈ diags, diagWF d) →
      ∀ d ∈ (Analysis.handle_let_statement ts added diags).2, diagWF d := by
  intro ts
  induction ts with
  | nil =>
    intro added diags h d hd
    simpa [Analysis.handle_let_statement] using h d hd
  | cons t rest ih =>
    intro added diags h d hd
    by_cases hid : t.token_type = .IDENTIFIER
    · by_cases hc : added.contains t.lexeme = true
      · rw [Analysis.handle_let_statement] at hd
        simp only [if_pos hid, hc, not_true_eq_false, if_false] at hd
        refine ih added _ ?_ d hd
        intro d' hd'
        rcases List.mem_append.mp hd' with hd1 | hd2
        · exact h d' hd1
        · simp only [List.mem_singleton] at hd2
          subst hd2
          exact diagWF_generate _ _
      · rw [Analysis.handle_let_statement] at hd
        simp only [if_pos hid, hc, Bool.false_eq_true, not_false_eq_true, if_true] at hd
        exact ih _ diags h d hd
    · by_cases harrow : t.token_type = .ARROW
      · rw [Analysis.handle_let_statement] at hd
        simp only [if_neg hid, if_pos harrow] at hd
        exact h d hd
      · rw [Analysis.handle_let_statement] at hd
        simp only [if_neg hid, if_neg harrow] at hd
        refine ih added _ ?_ d hd
        intro d' hd'
        rcases List.mem_append.mp hd' with hd1 | hd2
        · exact h d' hd1
        · simp only [List.mem_singleton] at hd2
          subst hd2
          exact diagWF_generate _ _

/-- The body walk only ever emits well-formed diagnostics. -/
theorem Analysis.let_body_scan_wf :
    ∀ (stack : List Scope) (rest : List Token) (n : Nat) (ds : List Diagnostic),
      Analysis.let_body_scan stack rest = .ok (n, ds) → ∀ d ∈ ds, diagWF d := by
  intro stack rest
  induction rest with
  | nil =>
    intro n ds h
    simp [Analysis.let_body_scan] at h
  | cons t rest ih =>
    intro n ds h d hd
    by_cases hsemi : t.token_type = .SEMICOLON
    · simp only [Analysis.let_body_scan, if_pos hsemi] at h
      injection h with hpair
      injection hpair with h1 h2
      subst h2
      simp at hd
    · by_cases hid : t.token_type = .IDENTIFIER
      · cases hh : stack.head? with
        | none =>
          simp only [Analysis.let_body_scan, if_neg hsemi, if_pos hid, hh] at h
          cases h
        | some scope =>
          simp only [Analysis.let_body_scan, if_neg hsemi, if_pos hid, hh] at h
          rcases hrec : Analysis.let_body_scan stack rest with nds | m | _ <;> rw [hrec] at h
          · obtain ⟨n', ds'⟩ := nds
            dsimp only at h
            injection h with hpair
            injection hpair with h1 h2
            subst h2
            rcases List.mem_append.mp hd with hd1 | hd2
            · split at hd1
              · simp only [List.mem_singleton] at hd1
                subst hd1
                exact diagWF_generate _ _
              · cases hd1
            · exact ih n' ds' hrec d hd2
          · cases h
          · cases h
      · simp only [Analysis.let_body_scan, if_neg hsemi, if_neg hid] at h
        rcases hrec : Analysis.let_body_scan stack rest with nds | m | _ <;> rw [hrec] at h
        · obtain ⟨n', ds'⟩ := nds
          dsimp only at h
          injection h with hpair
          injection hpair with h1 h2
          subst h2
          exact ih n' ds' hrec d hd
        · cases h
        · cases h

/-- C10. Every diagnostic the scope-diagnostics engine produces carries
severity `Error`, a present message, and source `"custom-lsp"`:
(1) every output of `Diagnostic::generate`, (2) every output of the
`handle_error` copy in the binary, and (3) every diagnostic in the list returned by a normally
completing checking pass (given that the accumulated input diagnostics
already satisfy it). -/
theorem c10_diagnostic_fields :
    (∀ (t : Token) (m : String), diagWF (Diagnostic.generate t m)) ∧
    (∀ (t : Token) (m : String), diagWF (Main.handle_error t m)) ∧
    (∀ (fuel : Nat) (tokens : List Token) (i : Nat) (stack : List Scope)
       (diags : List Diagnostic) (resd : List Diagnostic) (ress : List Scope),
      (∀ d ∈ diags, diagWF d) →
      Analysis.find_unknown_words_loop tokens fuel i stack diags = .ok (resd, ress) →
      ∀ d ∈ resd, diagWF d) := by
  refine ⟨diagWF_generate, diagWF_handle_error, ?_⟩
  intro fuel
  induction fuel with
  | zero =>
    intro tokens i stack diags resd ress hwf h
    simp only [Analysis.find_unknown_words_loop] at h
    cases h
  | succ fuel ih =>
    intro tokens i stack diags resd ress hwf h
    cases hget : tokens.get? i with
    | none =>
      simp only [Analysis.find_unknown_words_loop, hget] at h
      injection h with hpair
      injection hpair with h1 h2
      subst h1
      exact hwf
    | some token =>
      cases httype : token.token_type
      case LET =>
        cases hget1 : tokens.get? (i + 1) with
        | none =>
          simp only [Analysis.find_unknown_words_loop, hget, httype, hget1] at h
          injection h with hpair
          injection hpair with h1 h2
          subst h1
          intro d hd
          rcases List.mem_append.mp hd with hd1 | hd2
          · exact hwf d hd1
          · simp only [List.mem_singleton] at hd2
            subst hd2
            exact diagWF_generate _ _
        | some t1 =>
          by_cases hid1 : t1.token_type = .IDENTIFIER
          · cases hh : stack.head? with
            | none =>
              simp only [Analysis.find_unknown_words_loop, hget, httype, hget1,
                if_neg (not_not_intro hid1), hh] at h
              cases h
            | some top =>
              cases hdup : top.contains t1.lexeme with
              | true =>
                simp only [Analysis.find_unknown_words_loop, hget, httype, hget1,
                  if_neg (not_not_intro hid1), hh, hdup, if_pos rfl] at h
                injection h with hpair
                injection hpair with h1 h2
                subst h1
                intro d hd
                rcases List.mem_append.mp hd with hd1 | hd2
                · exact hwf d hd1
                · simp only [List.mem_singleton] at hd2
                  subst hd2
                  exact diagWF_generate _ _
              | false =>
                cases hget2 : tokens.get? (i + 2) with
                | none =>
                  simp only [Analysis.find_unknown_words_loop, hget, httype, hget1,
                    if_neg (not_not_intro hid1), hh, hdup, Bool.false_eq_true, if_false,
                    hget2] at h
                  injection h with hpair
                  injection hpair with h1 h2
                  subst h1
                  intro d hd
                  rcases List.mem_append.mp hd with hd1 | hd2
                  · exact hwf d hd1
                  · simp only [List.mem_singleton] at hd2
                    subst hd2
                    exact diagWF_generate _ _
                | some t2 =>
                  rcases hscan : Analysis.let_body_scan
                      ((Analysis.handle_let_statement (List.drop (i + 2) tokens) [] diags).1 ::
                        hsInsert t1.lexeme top :: stack.tail) (List.drop (i + 2) tokens)
                    with nds | m | _
                  · obtain ⟨n, ds⟩ := nds
                    have hwf2 :
                        ∀ d ∈ (Analysis.handle_let_statement (List.drop (i + 2) tokens)
                            [] diags).2 ++ ds, diagWF d := by
                      intro d hd
                      rcases List.mem_append.mp hd with hd1 | hd2
                      · exact Analysis.handle_let_statement_wf _ [] diags hwf d hd1
                      · exact Analysis.let_body_scan_wf _ _ _ _ hscan d hd2
                    by_cases hdead : i + 2 + n > tokens.length
                    · simp only [Analysis.find_unknown_words_loop, hget, httype, hget1,
                        if_neg (not_not_intro hid1), hh, hdup, Bool.false_eq_true, if_false,
                        hget2, hscan, if_pos hdead] at h
                      injection h with hpair
                      injection hpair with h1 h2
                      subst h1
                      intro d hd
                      rcases List.mem_append.mp hd with hd1 | hd2
                      · exact hwf2 d hd1
                      · simp only [List.mem_singleton] at hd2
                        subst hd2
                        exact diagWF_generate _ _
                    · simp only [Analysis.find_unknown_words_loop, hget, httype, hget1,
                        if_neg (not_not_intro hid1), hh, hdup, Bool.false_eq_true, if_false,
                        hget2, hscan, if_neg hdead] at h
                      exact ih tokens (i + 2 + n + 1) _ _ resd ress hwf2 h
                  · simp only [Analysis.find_unknown_words_loop, hget, httype, hget1,
                      if_neg (not_not_intro hid1), hh, hdup, Bool.false_eq_true, if_false,
                      hget2, hscan] at h
                    cases h
                  · simp only [Analysis.find_unknown_words_loop, hget, httype, hget1,
                      if_neg (not_not_intro hid1), hh, hdup, Bool.false_eq_true, if_false,
                      hget2, hscan] at h
                    cases h
          · simp only [Analysis.find_unknown_words_loop, hget, httype, hget1,
              if_pos hid1] at h
            injection h with hpair
            injection hpair with h1 h2
            subst h1
            intro d hd
            rcases List.mem_append.mp hd with hd1 | hd2
            · exact hwf d hd1
            · simp only [List.mem_singleton] at hd2
              subst hd2
              exact diagWF_generate _ _
      case IDENTIFIER =>
        simp only [Analysis.find_unknown_words_loop, hget, httype] at h
        refine ih tokens (i + 1) stack _ resd ress ?_ h
        intro d hd
        rcases List.mem_append.mp hd with hd1 | hd2
        · exact hwf d hd1
        · split at hd2
          · simp only [List.mem_singleton] at hd2
            subst hd2
            exact diagWF_generate _ _
          · cases hd2
      all_goals {
        simp only [Analysis.find_unknown_words_loop, hget, httype] at h
        exact ih tokens (i + 1) stack diags resd ress hwf h
      }

/-- C10 witness. The pipeline invariant applied to a concrete pass that
emits a diagnostic: checking the single unknown identifier `y`. -/
theorem c10_witness :
    ∀ d ∈ [Diagnostic.generate
      { token_type := .IDENTIFIER, lexeme := "y", line := 1, column := 1 }
      ("Unknown identifier: " ++ "y")], diagWF d := by
  exact c10_diagnostic_fields.2.2 3
    [{ token_type := .IDENTIFIER, lexeme := "y", line := 1, column := 1 },
     { token_type := .EOF, lexeme := "", line := 1, column := 1 }] 0
    [Analysis.generate_globals] []
    [Diagnostic.generate
      { token_type := .IDENTIFIER, lexeme := "y", line := 1, column := 1 }
      ("Unknown identifier: " ++ "y")]
    [Analysis.generate_globals]
    (by intro d hd; cases hd) (by decide)

end MylangLsp
